import Mathlib

/-!
Verification development for the LICITANDO repository.

This file shallowly embeds the two core modules of the repository,
src/price_search.py (catalog loading and price matching) and
src/script_principal_turbo.py (PDF table/text extraction and
normalization), and proves the specified properties about them.

Modelling conventions:
* Python floats are modelled as exact rationals; the decimal fragment of
  the builtin float() string parser is embedded (exponents, inf and nan
  literals are outside the modelled fragment).
* All rational computations inside definitions are written with kernel
  computable primitives (mkRat, Int and Nat arithmetic); bridge lemmas
  relate them to the ordinary field operations used in theorem statements.
* NaN values (unparsable prices, missing quantities) are modelled as
  Option.none; pandas DataFrames are modelled as lists of records.
* Strings are manipulated through their character lists; character class
  tests model the ASCII fragment of the corresponding Python semantics.
-/

namespace Licitando

/-! ### Kernel-computable rational arithmetic

Batteries marks Rat.add, Rat.mul, Rat.inv and Rat.sub irreducible, so the
embedding uses mkRat based operations that the kernel can evaluate; the
bridge lemmas addQ_eq, negQ_eq and divByNatQ_eq below identify them with
the ordinary field operations. -/

/-- Kernel-computable addition on ℚ. -/
def addQ (a b : ℚ) : ℚ :=
  mkRat (a.num * (b.den : ℤ) + b.num * (a.den : ℤ)) (a.den * b.den)

/-- Kernel-computable negation on ℚ. -/
def negQ (a : ℚ) : ℚ := mkRat (-a.num) a.den

/-- Kernel-computable division of a rational by a natural number. -/
def divByNatQ (a : ℚ) (n : ℕ) : ℚ := mkRat a.num (a.den * n)

/-- Kernel-computable sum of a list of rationals. -/
def sumQ (l : List ℚ) : ℚ := l.foldr addQ 0

/-! ### Python string primitives (ASCII fragment) -/

/-- Remove leading and trailing whitespace of a character list. -/
def stripWsChars (l : List Char) : List Char :=
  ((l.dropWhile Char.isWhitespace).reverse.dropWhile Char.isWhitespace).reverse

/-- Python str.strip(): remove leading and trailing whitespace. -/
def pyStrip (s : String) : String := (stripWsChars s.data).asString

/-- Python str.upper() on the ASCII fragment. -/
def pyUpper (s : String) : String := (s.data.map Char.toUpper).asString

/-- Accumulator-based splitter: words of a character list, where every
space character separates words (runs of spaces produce no empty words). -/
def wordsAux : List Char → List Char → List String
  | [], acc => if acc.isEmpty then [] else [acc.reverse.asString]
  | c :: cs, acc =>
    if c = ' ' then
      if acc.isEmpty then wordsAux cs [] else acc.reverse.asString :: wordsAux cs []
    else wordsAux cs (c :: acc)

/-- Python str.split() restricted to the space character (inputs fed to it
in this embedding have already had every whitespace mapped to a space). -/
def wordsOf (s : String) : List String := wordsAux s.data []

/-! ### price_search.py -/

/-- A character counting as a word character for the regex class \w
(ASCII fragment of the Unicode definition used by Python). -/
def isWordChar (c : Char) : Bool := c.isAlphanum || c = '_'

/-- One character step of norm_txt: lowercase; characters matching
the pattern of PUNCTS (neither word nor whitespace) and whitespace both
become a space, which the subsequent collapse merges. -/
def normChar (c : Char) : Char :=
  let c := c.toLower
  if isWordChar c then c else ' '

/-- norm_txt from price_search.py: lowercase, punctuation to spaces,
whitespace runs collapsed to single spaces, stripped. -/
def norm_txt (s : String) : String :=
  String.intercalate " " (wordsAux (s.data.map normChar) [])

/-- First-occurrence deduplication (the order-preserving semantics of
pandas Series.unique and of Python set insertion order over a list). -/
def uniqueAux (seen : List String) : List String → List String
  | [] => []
  | x :: xs =>
    if x ∈ seen then uniqueAux seen xs else x :: uniqueAux (x :: seen) xs

/-- token_set_overlap from price_search.py: Jaccard similarity between
the token sets of the two normalized strings. -/
def token_set_overlap (a b : String) : ℚ :=
  if a = "" || b = "" then 0
  else
    let sa := uniqueAux [] (wordsOf (norm_txt a))
    let sb := uniqueAux [] (wordsOf (norm_txt b))
    if sa.isEmpty || sb.isEmpty then 0
    else
      let inter := (sa.filter (fun t => decide (t ∈ sb))).length
      let uni := (sa ++ sb.filter (fun t => !decide (t ∈ sa))).length
      if uni = 0 then 0 else mkRat (inter : ℤ) uni

/-- Value of a digit string, most significant first. -/
def digitsVal (l : List Char) : ℕ :=
  l.foldl (fun acc c => 10 * acc + (c.toNat - '0'.toNat)) 0

/-- Leading sign of a float literal: returns (is-negative, rest). -/
def splitSign (l : List Char) : Bool × List Char :=
  match l with
  | c :: rest =>
    if c = '-' then (true, rest)
    else if c = '+' then (false, rest) else (false, l)
  | [] => (false, [])

/-- Unsigned part of the decimal fragment of Python float():
digits, optionally a single dot with further digits, at least one digit
in total, nothing else. -/
def parseUnsigned (u : List Char) : Option ℚ :=
  let intDs := u.takeWhile Char.isDigit
  match u.dropWhile Char.isDigit with
  | [] => if intDs.isEmpty then Option.none else some ((digitsVal intDs : ℤ) : ℚ)
  | c :: rest2 =>
    if c = '.' then
      let fracDs := rest2.takeWhile Char.isDigit
      if (rest2.dropWhile Char.isDigit).isEmpty then
        if intDs.isEmpty && fracDs.isEmpty then Option.none
        else
          some (mkRat ((digitsVal intDs * 10 ^ fracDs.length + digitsVal fracDs : ℕ) : ℤ)
            (10 ^ fracDs.length))
      else Option.none
    else Option.none

/-- Decimal fragment of the Python float() string parser: optional
whitespace, optional sign, digits with at most one decimal point. -/
def pyFloatChars (l : List Char) : Option ℚ :=
  let su := splitSign (stripWsChars l)
  (parseUnsigned su.2).map (fun q => if su.1 then negQ q else q)

/-- to_float from price_search.py: float(str(x).replace(",", ".")),
returning none for the NaN outcome of an unparsable string. -/
def to_float (s : String) : Option ℚ :=
  pyFloatChars (s.data.map (fun c => if c = ',' then '.' else c))

/-- A raw catalog row as read from the CSV, all fields as strings
(missing columns have been synthesized as empty strings upstream). -/
structure CatalogRow where
  descricao : String
  unidade : String
  preco : String
  mercado : String
  fonte : String
  codigo : String
deriving DecidableEq

/-- A normalized in-memory catalog entry: parsed price and the two
derived comparison columns desc_norm and codigo_norm. -/
structure CatEntry where
  descricao : String
  unidade : String
  preco : Option ℚ
  mercado : String
  fonte : String
  codigo : String
  descNorm : String
  codigoNorm : String
deriving DecidableEq

/-- Field normalization of one catalog row (the astype/map block of
carregar_catalogo): strip the code, parse the price, normalize the
description; codigo_norm strips the already stripped code again. -/
def mkCatEntry (r : CatalogRow) : CatEntry :=
  let cod := pyStrip r.codigo
  { descricao := r.descricao
    unidade := r.unidade
    preco := to_float r.preco
    mercado := r.mercado
    fonte := r.fonte
    codigo := cod
    descNorm := norm_txt r.descricao
    codigoNorm := pyStrip cod }

/-- carregar_catalogo from price_search.py, after the CSV has been read
into rows: normalize every row and drop rows lacking both a normalized
description and a normalized code. -/
def carregar_catalogo (rows : List CatalogRow) : List CatEntry :=
  (rows.map mkCatEntry).filter (fun e => (e.descNorm != "") || (e.codigoNorm != ""))

/-- The catalog file: none models a missing file (os.path.exists false),
in which case carregar_catalogo returns an empty frame. -/
def loadCatalog (file : Option (List CatalogRow)) : List CatEntry :=
  match file with
  | Option.none => []
  | some rows => carregar_catalogo rows

/-- One row of the item DataFrame handed to buscar_precos: the values of
the detected code and description columns, as strings. -/
structure ItemRow where
  codigo : String
  descricao : String
deriving DecidableEq

/-- The parsable prices of a set of catalog entries (pandas dropna/skipna
view of the preco column). -/
def precosValidos (sub : List CatEntry) : List ℚ :=
  sub.filterMap (fun e => e.preco)

/-- pandas Series.mean(skipna=True) over the preco column: the mean of
the parsable prices, NaN (none) when there is none. -/
def mediaPrecos (sub : List CatEntry) : Option ℚ :=
  let ps := precosValidos sub
  if ps.isEmpty then Option.none else some (divByNatQ (sumQ ps) ps.length)

/-- Deduplicated, order-preserving, semicolon-joined label ("; ".join of
the unique values, as in the mercado/fonte aggregation). -/
def joinUnique (l : List String) : String :=
  String.intercalate "; " (uniqueAux [] l)

/-- The catalog entries whose normalized code equals the given code
(the sub frame of step 1 of buscar_precos). -/
def codeSub (catalogo : List CatEntry) (cod : String) : List CatEntry :=
  catalogo.filter (fun e => e.codigoNorm == cod)

/-- The catalog entries whose description similarity to the normalized
item description reaches the threshold (the sub frame of step 2). -/
def qualifying (catalogo : List CatEntry) (dn : String) (ms : ℚ) : List CatEntry :=
  catalogo.filter (fun e => decide (ms ≤ token_set_overlap e.descNorm dn))

/-- The top-similarity entry (sort_values descending followed by iloc[0]);
on ties the earliest entry in catalog order wins. -/
def argmaxSim (dn : String) : List CatEntry → Option CatEntry
  | [] => Option.none
  | e :: es =>
    match argmaxSim dn es with
    | Option.none => some e
    | some b =>
      if token_set_overlap b.descNorm dn > token_set_overlap e.descNorm dn then some b
      else some e

/-- Step 1 of the per-item loop of buscar_precos: for a nonempty
stripped code with catalog entries of equal normalized code and a
non-NaN mean price, the averaged result with aggregated labels;
otherwise nothing, and step 2 runs. -/
def codeMatch (catalogo : List CatEntry) (cod : String) :
    Option (ℚ × String × String) :=
  if cod ≠ "" then
    let sub := codeSub catalogo cod
    if !sub.isEmpty then
      match mediaPrecos sub with
      | some p =>
        some (p, joinUnique (sub.map (fun e => e.mercado)),
          joinUnique (sub.map (fun e => e.fonte)))
      | Option.none => Option.none
    else Option.none
  else Option.none

/-- The per-item body of the loop of buscar_precos: step 1 matches by
exact normalized code and averages; step 2, only when step 1 produced
nothing usable, matches by description similarity and takes the price of
the top-scoring qualifying entry. hasCod and hasDesc model whether
pick_df_col detected a code and a description column. -/
def matchItem (catalogo : List CatEntry) (ms : ℚ) (hasCod hasDesc : Bool)
    (it : ItemRow) : Option ℚ × String × String :=
  let step1 : Option (ℚ × String × String) :=
    if hasCod then codeMatch catalogo (pyStrip it.codigo) else Option.none
  match step1 with
  | some r => (some r.1, r.2.1, r.2.2)
  | Option.none =>
    if hasDesc then
      let dn := norm_txt it.descricao
      if dn ≠ "" then
        match argmaxSim dn (qualifying catalogo dn ms) with
        | some best =>
          match best.preco with
          | some p => (some p, best.mercado, best.fonte)
          | Option.none => (Option.none, "", "")
        | Option.none => (Option.none, "", "")
      else (Option.none, "", "")
    else (Option.none, "", "")

/-- buscar_precos from price_search.py: three lists in the row order of
the item DataFrame (values, markets, sources). An empty DataFrame and an
empty catalog short-circuit to all-NaN/empty results. -/
def buscar_precos (df : List ItemRow) (min_score : ℚ) (hasCod hasDesc : Bool)
    (catalogFile : Option (List CatalogRow)) :
    List (Option ℚ) × List String × List String :=
  if df.isEmpty then ([], [], [])
  else
    let catalogo := loadCatalog catalogFile
    if catalogo.isEmpty then
      (df.map (fun _ => Option.none), df.map (fun _ => ""), df.map (fun _ => ""))
    else
      let results := df.map (matchItem catalogo min_score hasCod hasDesc)
      (results.map (fun r => r.1), results.map (fun r => r.2.1),
        results.map (fun r => r.2.2))

/-! ### script_principal_turbo.py -/

/-- A pdfplumber table cell or a value stored in a guessed DataFrame:
None, a string, or an integer. -/
inductive Cell where
  | null
  | str (s : String)
  | int (n : ℤ)
deriving DecidableEq

/-- Python truthiness of a cell value (used by the any(r) test of
extract_tables). -/
def cellTruthy : Cell → Bool
  | Cell.null => false
  | Cell.str s => s != ""
  | Cell.int n => n != 0

/-- str(x or "") on a cell value. -/
def cellStr : Cell → String
  | Cell.null => ""
  | Cell.str s => s
  | Cell.int n => if n = 0 then "" else toString n

/-- Python round() on an exact rational: round half to even, as applied
to the parsed quantity by coerce_int. -/
def pyRound (q : ℚ) : ℤ :=
  let f := Int.fdiv q.num (q.den : ℤ)
  let r := addQ q (negQ (mkRat f 1))
  if r < mkRat 1 2 then f
  else if mkRat 1 2 < r then f + 1
  else if f % 2 = 0 then f else f + 1

/-- coerce_int from script_principal_turbo.py: ints pass through; None
fails; strings are stripped, dots removed, commas turned into dots,
filtered to digits, dots and minus signs, then parsed as a float and
rounded to an integer; every failure yields None. -/
def coerce_int (c : Cell) : Option ℤ :=
  match c with
  | Cell.null => Option.none
  | Cell.int n => some n
  | Cell.str x =>
    let s := pyStrip x
    let s1 := (s.data.filter (fun ch => ch != '.')).map
      (fun ch => if ch = ',' then '.' else ch)
    let s2 := s1.filter (fun ch => ch.isDigit || ch = '.' || ch = '-')
    if s2 = [] || s2 = ['-'] || s2 = ['.'] then Option.none
    else
      match pyFloatChars s2 with
      | some q => some (pyRound q)
      | Option.none => Option.none

/-- norm_unid, the unit normalization of pick_relevant_columns: strip,
uppercase, map the abbreviations UNID, UND, UNI and UN. to UN, return
None for an empty token and any other token unchanged. -/
def norm_unid (c : Cell) : Option String :=
  let s := pyUpper (pyStrip (cellStr c))
  if s = "UNID" ∨ s = "UND" ∨ s = "UNI" ∨ s = "UN." then some "UN"
  else if s = "" then Option.none else some s

/-- The canonical column names of the extractor. -/
def COL_ITEM : String := "item"

/-- Canonical code column name. -/
def COL_COD : String := "Código PDF"

/-- Canonical description column name. -/
def COL_DESC : String := "Descrição resumida PDF"

/-- Canonical unit column name. -/
def COL_UNID : String := "Unidade"

/-- Canonical quantity column name. -/
def COL_QTD : String := "Quantidade"

/-- normalize_header: strip, lowercase (ASCII) and collapse whitespace
runs to single spaces. -/
def normalize_header (s : String) : String :=
  String.intercalate " "
    (wordsAux (s.data.map (fun ch => if ch.isWhitespace then ' ' else ch.toLower)) [])

/-- canonicalize_header: match the normalized header against the finite
denotations of the ALIAS_MAP regexes (normalized headers are lowercase
with single internal spaces, so each anchored regex denotes the finite
set listed here); unmatched headers are returned stripped. -/
def canonicalize_header (h : String) : String :=
  let n := normalize_header h
  if n ∈ ["cod", "cód", "codigo", "código", "cod.", "cód."] then COL_COD
  else if n ∈ ["descricao", "descriçao", "descricão", "descrição", "descr"] then COL_DESC
  else if n ∈ ["unid", "unidade", "und", "uni", "un"] then COL_UNID
  else if n ∈ ["qtd", "quantidade", "qtde"] then COL_QTD
  else if n ∈ ["item", "nitem", "noitem", "nºitem", "n item", "no item", "nº item"] then COL_ITEM
  else pyStrip h

/-- A raw table DataFrame: a header row of column names and data rows of
cells. -/
structure RawDF where
  header : List String
  rows : List (List Cell)
deriving DecidableEq

/-- df[name] for one row after renaming: the cell of the first column
bearing the canonical name, or None when the column was absent and was
created as an all-None column. -/
def getCell (hdr : List String) (row : List Cell) (name : String) : Cell :=
  match hdr.findIdx? (fun h => h == name) with
  | Option.none => Cell.null
  | some i => (row.get? i).getD Cell.null

/-- One extracted item record, the five canonical columns of
pick_relevant_columns with their coerced types. -/
structure ItemRec where
  item : Option ℤ
  cod : String
  desc : String
  unid : Option String
  qtd : Option ℤ
deriving DecidableEq

/-- The description cleanup of pick_relevant_columns:
re.sub(r"\s+", " ", str(x or "").strip()). -/
def collapseWs (s : String) : String :=
  String.intercalate " "
    (wordsAux ((pyStrip s).data.map (fun ch => if ch.isWhitespace then ' ' else ch)) [])

/-- The description column always holds a string after cleanup, hence is
never NA for the isna().all(axis=1) row drop. -/
def descIsNA (_ : ItemRec) : Bool := false

/-- pick_relevant_columns from script_principal_turbo.py: canonicalize
the header, read the five canonical columns of every row (absent columns
as None), coerce item and quantity to integers, normalize the unit,
clean description and code, and drop rows whose description, unit and
quantity are all NA (vacuous, since the description is always a string). -/
def pick_relevant_columns (df : RawDF) : List ItemRec :=
  let hdr := df.header.map canonicalize_header
  let recs := df.rows.map (fun r =>
    ({ item := coerce_int (getCell hdr r COL_ITEM)
       cod := pyStrip (cellStr (getCell hdr r COL_COD))
       desc := collapseWs (cellStr (getCell hdr r COL_DESC))
       unid := norm_unid (getCell hdr r COL_UNID)
       qtd := coerce_int (getCell hdr r COL_QTD) } : ItemRec))
  recs.filter (fun rec => !(descIsNA rec && rec.unid.isNone && rec.qtd.isNone))

/-- extract_tables from script_principal_turbo.py, over the tables of
all pages: keep tables with a header row and at least one data row where
some row has a truthy cell; the header cells are str(x or "").strip(). -/
def extract_tables (tables : List (List (List Cell))) : List RawDF :=
  tables.filterMap (fun t =>
    match t with
    | [] => Option.none
    | hd :: tl =>
      if tl.isEmpty then Option.none
      else if tl.all (fun r => !(r.any cellTruthy)) then Option.none
      else some { header := hd.map (fun c => pyStrip (cellStr c)), rows := tl })

/-- Splitter for MULTI_SPACE = \s{2,}: cut the character list at every
run of two or more whitespace characters (a single whitespace character
stays inside its part). -/
def splitMS : List Char → List Char → List String
  | [], acc => if acc.isEmpty then [] else [acc.reverse.asString]
  | c :: cs, acc =>
    if c.isWhitespace && (match cs with | c2 :: _ => c2.isWhitespace | [] => false) then
      (if acc.isEmpty then [] else [acc.reverse.asString]) ++
        splitMS (cs.dropWhile Char.isWhitespace) []
    else splitMS cs (c :: acc)
termination_by l _ => l.length
decreasing_by
  · exact Nat.lt_succ_of_le (List.dropWhile_sublist _).length_le
  · exact Nat.lt_succ_self _

/-- extract_text_rows from script_principal_turbo.py: strip every text
line, drop empty lines, split each on runs of two or more whitespace
characters into stripped nonempty parts, and keep lines with at least
three parts. -/
def extract_text_rows (textLines : List String) : List (List String) :=
  let linhas := (textLines.map pyStrip).filter (fun s => s != "")
  (linhas.map (fun s =>
    ((splitMS s.data []).map pyStrip).filter (fun p => p != ""))).filter
    (fun parts => 3 ≤ parts.length)

/-- fullmatch of [A-Z\.]{1,5}: the unit-token shape of the text fallback. -/
def regexUnit (s : String) : Bool :=
  decide (1 ≤ s.data.length) && decide (s.data.length ≤ 5) &&
    s.data.all (fun c => ('A' ≤ c && c ≤ 'Z') || c = '.')

/-- match of ^[0-9A-Za-z\-\./]{3,}$: the code-token shape of the text
fallback. -/
def regexCode (s : String) : Bool :=
  decide (3 ≤ s.data.length) &&
    s.data.all (fun c => c.isAlphanum || c = '-' || c = '.' || c = '/')

/-- Lift an optional integer into a cell (None or an int value). -/
def cellOfOptInt : Option ℤ → Cell
  | Option.none => Cell.null
  | some n => Cell.int n

/-- One row of the text fallback of rows_to_df_guess: pop a trailing
quantity, then a trailing short unit token, then a leading numeric item,
then a leading code-shaped token of at most 20 characters; the rest is
the description; rows with an empty description are dropped. -/
def guessRow (r : List String) : Option (List Cell) :=
  let step1 : Option ℤ × List String :=
    match r.getLast? with
    | Option.none => (Option.none, r)
    | some last =>
      match coerce_int (Cell.str last) with
      | some q => (some q, r.dropLast)
      | Option.none => (Option.none, r)
  let qtd_val := step1.1
  let parts1 := step1.2
  let step2 : String × List String :=
    match parts1.getLast? with
    | Option.none => ("", parts1)
    | some last =>
      let penult := pyUpper last
      if regexUnit penult then (penult, parts1.dropLast) else ("", parts1)
  let un_val := step2.1
  let parts2 := step2.2
  let step3 : Option ℤ × List String :=
    match parts2 with
    | [] => (Option.none, [])
    | p0 :: rest =>
      match coerce_int (Cell.str p0) with
      | some it => (some it, rest)
      | Option.none => (Option.none, p0 :: rest)
  let item_val := step3.1
  let parts3 := step3.2
  let step4 : String × List String :=
    match parts3 with
    | [] => ("", [])
    | p1 :: rest2 =>
      if regexCode p1 && decide (p1.data.length ≤ 20) then (p1, rest2)
      else ("", p1 :: rest2)
  let cod_val := step4.1
  let parts4 := step4.2
  let desc_val := pyStrip (String.intercalate " " parts4)
  if desc_val = "" then Option.none
  else some [cellOfOptInt item_val, Cell.str cod_val, Cell.str desc_val,
    (if un_val = "" then Cell.null else Cell.str un_val), cellOfOptInt qtd_val]

/-- rows_to_df_guess from script_principal_turbo.py: build the guessed
records, and when any exist, run them through pick_relevant_columns with
the canonical five-column header (which canonicalize_header maps to
itself). -/
def rows_to_df_guess (rows : List (List String)) : List ItemRec :=
  let registros := rows.filterMap guessRow
  if registros.isEmpty then []
  else pick_relevant_columns
    { header := [COL_ITEM, COL_COD, COL_DESC, COL_UNID, COL_QTD], rows := registros }

/-- The page contents pdfplumber exposes to the extractor: the tables of
all pages and the stripped-together text lines of all pages (the
concatenation of extract_text().splitlines() over the pages). -/
structure PdfContent where
  tables : List (List (List Cell))
  textLines : List String
deriving DecidableEq

/-- The uploaded byte stream: either not a parseable PDF container, or a
parseable document with its extractable content. -/
inductive PdfBytes where
  | invalid
  | valid (doc : PdfContent)
deriving DecidableEq

/-- The error pdfplumber.open raises on bytes that are not a valid PDF
container. -/
inductive PdfOpenError where
  | invalidDocument
deriving DecidableEq

/-- pdfplumber.open: fails with an InvalidDocument error on an invalid
container, otherwise yields the document content. -/
def openPdf : PdfBytes → Except PdfOpenError PdfContent
  | PdfBytes.invalid => Except.error PdfOpenError.invalidDocument
  | PdfBytes.valid doc => Except.ok doc

/-- One row of the final table of processar_pdf: the five extracted
columns plus the app columns QUANT PESQ (1), Valor médio do produto,
Status, Descrição localidade / Mercado and Fontes. -/
structure AppRow where
  item : Option ℤ
  cod : String
  desc : String
  unid : Option String
  qtd : Option ℤ
  quantPesq : ℤ
  valorMedio : Option ℚ
  status : String
  mercado : String
  fontes : String
deriving DecidableEq

/-- The post-processing block of processar_pdf on one record: set
QUANT PESQ (1) to 1 and create the remaining app columns empty. -/
def toAppRow (r : ItemRec) : AppRow :=
  { item := r.item, cod := r.cod, desc := r.desc, unid := r.unid, qtd := r.qtd
    quantPesq := 1, valorMedio := Option.none, status := "", mercado := ""
    fontes := "" }

/-- processar_pdf from script_principal_turbo.py. A missing upload and
an unparseable PDF container both return an empty frame (the open error
is caught and swallowed); otherwise the table strategy is tried first
and the text fallback second, and a nonempty result gets the app columns
with QUANT PESQ (1) = 1. Empty frames are modelled as empty row lists
(the column sets of empty frames are not tracked). -/
def processar_pdf (uploaded : Option PdfBytes) : List AppRow :=
  match uploaded with
  | Option.none => []
  | some b =>
    match openPdf b with
    | Except.error _ => []
    | Except.ok doc =>
      let table_dfs := extract_tables doc.tables
      let parsed := (table_dfs.map pick_relevant_columns).filter (fun d => !d.isEmpty)
      let base := if !parsed.isEmpty then parsed.flatten else []
      let base2 :=
        if base.isEmpty then rows_to_df_guess (extract_text_rows doc.textLines)
        else base
      if base2.isEmpty then [] else base2.map toAppRow

/-! ### Concrete demonstration inputs -/

/-- Catalog row: code 047.003.388, price 10.00, market Loja A. -/
def rowCode10 : CatalogRow :=
  { descricao := "PARAFUSO SEXTAVADO A", unidade := "UN", preco := "10.00",
    mercado := "Loja A", fonte := "site-a", codigo := "047.003.388" }

/-- Catalog row: code 047.003.388, price 12.00, market Loja B. -/
def rowCode12 : CatalogRow :=
  { descricao := "PARAFUSO SEXTAVADO B", unidade := "UN", preco := "12.00",
    mercado := "Loja B", fonte := "site-b", codigo := "047.003.388" }

/-- Two-row catalog sharing the code 047.003.388. -/
def demoCatalogCode : List CatEntry := carregar_catalogo [rowCode10, rowCode12]

/-- Item carrying the shared code. -/
def demoItemCode : ItemRow :=
  { codigo := "047.003.388", descricao := "QUALQUER DESCRICAO" }

/-- Catalog row without a code, description similarity 1 to the demo
item, price 10.00. -/
def rowSim10 : CatalogRow :=
  { descricao := "ADAPTADOR PVC 3 4", unidade := "UN", preco := "10.00",
    mercado := "Loja A", fonte := "site-a", codigo := "" }

/-- Catalog row without a code, description similarity 3/4 to the demo
item, price 20.00. -/
def rowSim20 : CatalogRow :=
  { descricao := "ADAPTADOR PVC 3", unidade := "UN", preco := "20.00",
    mercado := "Loja B", fonte := "site-b", codigo := "" }

/-- Two-row catalog for description-similarity matching. -/
def demoCatalogDesc : List CatEntry := carregar_catalogo [rowSim10, rowSim20]

/-- Item without a code whose description matches rowSim10 exactly. -/
def demoItemDesc : ItemRow := { codigo := "", descricao := "ADAPTADOR PVC 3 4" }

/-- A pdfplumber table: header row plus one data row. -/
def demoTable : List (List Cell) :=
  [[Cell.str "Item", Cell.str "Código", Cell.str "Descrição", Cell.str "Unidade",
    Cell.str "Qtd"],
   [Cell.str "1", Cell.str "047.003.388", Cell.str "ADAPTADOR PVC", Cell.str "UN",
    Cell.str "5"]]

/-- A parseable PDF containing the demo table. -/
def demoDoc : PdfContent := { tables := [demoTable], textLines := [] }

/-- The extracted app row of the demo document. -/
def demoAppRow : AppRow :=
  { item := some 1, cod := "047.003.388", desc := "ADAPTADOR PVC", unid := some "UN",
    qtd := some 5, quantPesq := 1, valorMedio := Option.none, status := "",
    mercado := "", fontes := "" }

/-! ### Bridge lemmas: kernel-computable rational operations agree with
the field operations of ℚ -/

/-- mkRat is division of the casts. -/
theorem mkRat_eq_div_cast (n : ℤ) (d : ℕ) : mkRat n d = (n : ℚ) / (d : ℚ) := by
  rw [Rat.mkRat_eq_divInt, Rat.divInt_eq_div]
  norm_num

/-- addQ is addition. -/
theorem addQ_eq (a b : ℚ) : addQ a b = a + b := by
  unfold addQ
  rw [mkRat_eq_div_cast]
  have ha : ((a.den : ℚ)) ≠ 0 := by exact_mod_cast a.den_ne_zero
  have hb : ((b.den : ℚ)) ≠ 0 := by exact_mod_cast b.den_ne_zero
  conv_rhs => rw [← Rat.num_div_den a, ← Rat.num_div_den b]
  rw [div_add_div _ _ ha hb]
  push_cast
  ring_nf

/-- negQ is negation. -/
theorem negQ_eq (a : ℚ) : negQ a = -a := by
  unfold negQ
  rw [mkRat_eq_div_cast]
  conv_rhs => rw [← Rat.num_div_den a]
  push_cast
  rw [neg_div]

/-- divByNatQ is division by the cast. -/
theorem divByNatQ_eq (a : ℚ) (n : ℕ) : divByNatQ a n = a / (n : ℚ) := by
  unfold divByNatQ
  rw [mkRat_eq_div_cast]
  rcases eq_or_ne n 0 with h | h
  · subst h
    simp
  · have ha : ((a.den : ℚ)) ≠ 0 := by exact_mod_cast a.den_ne_zero
    conv_rhs => rw [← Rat.num_div_den a]
    push_cast
    rw [div_div]

/-- sumQ is List.sum. -/
theorem sumQ_eq (l : List ℚ) : sumQ l = l.sum := by
  induction l with
  | nil => rfl
  | cons x xs ih =>
    show addQ x (sumQ xs) = (x :: xs).sum
    rw [addQ_eq, ih, List.sum_cons]

/-- mediaPrecos of a set of entries with some parsable price is the
arithmetic mean of the parsable prices. -/
theorem mediaPrecos_eq_mean (sub : List CatEntry) (h : precosValidos sub ≠ []) :
    mediaPrecos sub =
      some ((precosValidos sub).sum / ((precosValidos sub).length : ℚ)) := by
  unfold mediaPrecos
  rw [if_neg (by simpa using h)]
  rw [divByNatQ_eq, sumQ_eq]

/-! ### Bounds of the similarity score and filter monotonicity -/

/-- A ratio of naturals through mkRat is nonnegative. -/
theorem mkRat_nat_nonneg (m n : ℕ) : 0 ≤ mkRat (m : ℤ) n := by
  rw [mkRat_eq_div_cast]
  positivity

/-- A ratio of naturals through mkRat with numerator at most the
denominator is at most one. -/
theorem mkRat_nat_le_one (m n : ℕ) (h : m ≤ n) : mkRat (m : ℤ) n ≤ 1 := by
  rw [mkRat_eq_div_cast]
  rcases Nat.eq_zero_or_pos n with h0 | h0
  · subst h0
    norm_num
  · have hn : (0 : ℚ) < (n : ℚ) := by exact_mod_cast h0
    rw [div_le_one hn]
    exact_mod_cast le_trans h (le_refl n)

/-- The Jaccard overlap is nonnegative. -/
theorem token_set_overlap_nonneg (a b : String) : 0 ≤ token_set_overlap a b := by
  simp only [token_set_overlap]
  split_ifs <;> norm_num

/-- The Jaccard overlap is at most one. -/
theorem token_set_overlap_le_one (a b : String) : token_set_overlap a b ≤ 1 := by
  simp only [token_set_overlap]
  split_ifs <;> try norm_num
  exact mkRat_nat_le_one _ _
    (le_trans (List.length_filter_le _ _) (by omega))

/-- Strengthening the predicate of a filter yields a sublist. -/
theorem filter_sublist_of_imp {α : Type} (l : List α) (p q : α → Bool)
    (h : ∀ a, p a = true → q a = true) : (l.filter p).Sublist (l.filter q) := by
  induction l with
  | nil => simp
  | cons x xs ih =>
    by_cases hp : p x = true
    · rw [List.filter_cons_of_pos hp, List.filter_cons_of_pos (h x hp)]
      exact ih.cons₂ x
    · rw [List.filter_cons_of_neg (by simpa using hp)]
      by_cases hq : q x = true
      · rw [List.filter_cons_of_pos hq]
        exact ih.cons x
      · rw [List.filter_cons_of_neg (by simpa using hq)]
        exact ih

/-- An empty catalog matches nothing: both steps of the per-item match
return the NaN/empty result. -/
theorem matchItem_nil (ms : ℚ) (hc hd : Bool) (it : ItemRow) :
    matchItem [] ms hc hd it = (Option.none, "", "") := by
  unfold matchItem
  cases hc <;> cases hd <;> simp [codeMatch, codeSub, qualifying, argmaxSim]

/-! ### Character-counting lemmas for the float parser -/

/-- dropWhile preserves the count of a character its predicate rejects. -/
theorem count_dropWhile_of_not (p : Char → Bool) (a : Char) (l : List Char)
    (hp : p a = false) : (l.dropWhile p).count a = l.count a := by
  induction l with
  | nil => rfl
  | cons c cs ih =>
    rw [List.dropWhile_cons]
    by_cases hc : p c = true
    · rw [if_pos hc, ih, List.count_cons]
      have hca : (c == a) = false := by
        rw [beq_eq_false_iff_ne]
        intro hce
        rw [hce, hp] at hc
        cases hc
      rw [hca]
      simp
    · rw [if_neg hc]

/-- takeWhile contains no characters its predicate rejects. -/
theorem count_takeWhile_zero (p : Char → Bool) (a : Char) (l : List Char)
    (hp : p a = false) : (l.takeWhile p).count a = 0 := by
  rw [List.count_eq_zero]
  intro hm
  have hpa := List.mem_takeWhile_imp hm
  rw [hp] at hpa
  cases hpa

/-- Stripping whitespace preserves the count of a non-whitespace
character. -/
theorem count_stripWs (a : Char) (l : List Char) (ha : a.isWhitespace = false) :
    (stripWsChars l).count a = l.count a := by
  unfold stripWsChars
  rw [List.count_reverse, count_dropWhile_of_not _ _ _ ha, List.count_reverse,
    count_dropWhile_of_not _ _ _ ha]

/-- Unfolding equation of splitSign on a nonempty list. -/
theorem splitSign_cons (c : Char) (cs : List Char) :
    splitSign (c :: cs) =
      if c = '-' then (true, cs)
      else if c = '+' then (false, cs) else (false, c :: cs) := rfl

/-- Removing a leading sign character preserves the count of a character
that is not a sign. -/
theorem count_splitSign (a : Char) (ha1 : ('-' == a) = false)
    (ha2 : ('+' == a) = false) (t : List Char) :
    ((splitSign t).2).count a = t.count a := by
  cases t with
  | nil => rfl
  | cons c cs =>
    rw [splitSign_cons]
    by_cases h1 : c = '-'
    · subst h1
      rw [if_pos rfl]
      rw [List.count_cons, ha1]
      simp
    · rw [if_neg h1]
      by_cases h2 : c = '+'
      · subst h2
        rw [if_pos rfl]
        rw [List.count_cons, ha2]
        simp
      · rw [if_neg h2]

/-- A digit string with at least two decimal points fails to parse. -/
theorem parseUnsigned_two_dots (u : List Char) (h : 2 ≤ u.count '.') :
    parseUnsigned u = Option.none := by
  have hu : u.count '.' = (u.takeWhile Char.isDigit).count '.' +
      (u.dropWhile Char.isDigit).count '.' := by
    conv_lhs => rw [← List.takeWhile_append_dropWhile (p := Char.isDigit) (l := u)]
    rw [List.count_append]
  rw [count_takeWhile_zero _ _ _ (by decide)] at hu
  simp only [parseUnsigned]
  cases hd : u.dropWhile Char.isDigit with
  | nil =>
    rw [hd] at hu
    simp at hu
    omega
  | cons c rest2 =>
    rw [hd] at hu
    simp only []
    by_cases hc : c = '.'
    · subst hc
      rw [if_pos rfl]
      have hrest2 : 1 ≤ rest2.count '.' := by
        rw [List.count_cons] at hu
        simp at hu
        omega
      have h3 : (rest2.dropWhile Char.isDigit).count '.' = rest2.count '.' :=
        count_dropWhile_of_not _ _ _ (by decide)
      have hne : (rest2.dropWhile Char.isDigit).isEmpty = false := by
        cases he : rest2.dropWhile Char.isDigit with
        | nil =>
          rw [he] at h3
          simp at h3
          omega
        | cons x xs => rfl
      rw [if_neg (by simp [hne])]
    · rw [if_neg hc]

/-- The float parser fails on any character list with at least two
decimal points. -/
theorem pyFloatChars_two_dots (l : List Char) (h : 2 ≤ l.count '.') :
    pyFloatChars l = Option.none := by
  simp only [pyFloatChars]
  have h2 : 2 ≤ ((splitSign (stripWsChars l)).2).count '.' := by
    rw [count_splitSign _ (by decide) (by decide), count_stripWs _ _ (by decide)]
    exact h
  rw [parseUnsigned_two_dots _ h2]
  rfl

/-- The comma-to-dot replacement turns the dot count into the sum of the
dot and comma counts. -/
theorem count_map_commaToDot (l : List Char) :
    (l.map (fun c => if c = ',' then '.' else c)).count '.' =
      l.count '.' + l.count ',' := by
  induction l with
  | nil => rfl
  | cons c cs ih =>
    rw [List.map_cons, List.count_cons, ih, List.count_cons, List.count_cons]
    by_cases h1 : c = ','
    · subst h1
      rw [if_pos rfl]
      simp
      omega
    · rw [if_neg h1]
      by_cases h2 : c = '.'
      · subst h2
        simp [h1]
        omega
      · have hb1 : (c == '.') = false := by
          rw [beq_eq_false_iff_ne]
          exact h2
        have hb2 : (c == ',') = false := by
          rw [beq_eq_false_iff_ne]
          exact h1
        rw [hb1, hb2]
        simp

/-! ### Claim theorems -/

/-- C1 (confirmed): for an item whose stripped code is nonempty, when the
set of catalog entries with equal normalized code is nonempty and at
least one of them has a parsable price, the match result is the
arithmetic mean of those entries' parsable prices, with market and
source labels deduplicated, order-preserving and semicolon-joined; the
description-similarity step is skipped entirely (the result does not
depend on the threshold or on any description). -/
theorem C1_code_match_mean (catalogo : List CatEntry) (ms : ℚ) (hasDesc : Bool)
    (it : ItemRow) (hcod : pyStrip it.codigo ≠ "")
    (hsub : codeSub catalogo (pyStrip it.codigo) ≠ [])
    (hps : precosValidos (codeSub catalogo (pyStrip it.codigo)) ≠ []) :
    matchItem catalogo ms true hasDesc it =
      (some ((precosValidos (codeSub catalogo (pyStrip it.codigo))).sum /
          ((precosValidos (codeSub catalogo (pyStrip it.codigo))).length : ℚ)),
        joinUnique ((codeSub catalogo (pyStrip it.codigo)).map (fun e => e.mercado)),
        joinUnique ((codeSub catalogo (pyStrip it.codigo)).map (fun e => e.fonte))) := by
  have hisE : (codeSub catalogo (pyStrip it.codigo)).isEmpty = false := by
    rw [List.isEmpty_eq_false]
    exact hsub
  simp only [matchItem, codeMatch, hcod, hisE, mediaPrecos_eq_mean _ hps, if_true,
    if_pos, Bool.not_false, ite_not, if_false, ne_eq, not_false_eq_true, ite_true]

/-- Witness for C1: the spec scenario of two catalog rows sharing code
047.003.388 with prices 10.00 and 12.00 yields the mean 11 and both
markets and sources joined. -/
theorem C1_code_match_mean_witness :
    matchItem demoCatalogCode (mkRat 7 10) true true demoItemCode =
      (some 11, "Loja A; Loja B", "site-a; site-b") := by
  have h := C1_code_match_mean demoCatalogCode (mkRat 7 10) true demoItemCode
    (by decide) (by decide) (by decide)
  rw [h]
  have hps : precosValidos (codeSub demoCatalogCode (pyStrip demoItemCode.codigo)) =
      [10, 12] := by decide
  rw [hps]
  simp only [Prod.mk.injEq]
  refine ⟨?_, by decide, by decide⟩
  norm_num

/-- C2 counterexample: an item matched by description similarity against
two qualifying entries (similarities 1 and 3/4 at threshold 7/10, prices
10 and 20) receives the price 10 of the single top-scoring entry, not
the arithmetic mean 15 of all qualifying entries. -/
theorem C2_mean_claim_counterexample :
    matchItem demoCatalogDesc (mkRat 7 10) true true demoItemDesc =
      (some 10, "Loja A", "site-a") ∧
    mediaPrecos (qualifying demoCatalogDesc (norm_txt demoItemDesc.descricao)
        (mkRat 7 10)) = some 15 ∧
    (qualifying demoCatalogDesc (norm_txt demoItemDesc.descricao)
        (mkRat 7 10)).length = 2 ∧
    (some (10 : ℚ) : Option ℚ) ≠ some 15 := by
  refine ⟨by decide, by decide, by decide, by decide⟩

/-- C2 (corrected): when an item reaches description matching (the code
step produced no usable result — empty code, no code-equal entry, or no
parsable price among them), the returned value is the price of the
top-scoring qualifying entry together with that entry's market and
source — not a mean over the qualifying entries. -/
theorem C2_top_score_price (catalogo : List CatEntry) (ms : ℚ) (hasCod : Bool)
    (it : ItemRow)
    (hcode : codeMatch catalogo (pyStrip it.codigo) = Option.none)
    (hdn : norm_txt it.descricao ≠ "") (best : CatEntry)
    (hbest : argmaxSim (norm_txt it.descricao)
        (qualifying catalogo (norm_txt it.descricao) ms) = some best)
    (p : ℚ) (hp : best.preco = some p) :
    matchItem catalogo ms hasCod true it = (some p, best.mercado, best.fonte) := by
  cases hasCod with
  | false => simp only [matchItem, hdn, hbest, hp, if_false, ne_eq,
      not_false_eq_true, ite_true, Bool.false_eq_true]
  | true => simp only [matchItem, hcode, hdn, hbest, hp, if_true, ne_eq,
      not_true_eq_false, not_false_eq_true, ite_true, ite_false]

/-- Witness for C2: the top-scoring entry of the demo catalog supplies
its price 10, market and source. -/
theorem C2_top_score_price_witness :
    matchItem demoCatalogDesc (mkRat 7 10) true true demoItemDesc =
      (some 10, "Loja A", "site-a") :=
  (C2_top_score_price demoCatalogDesc (mkRat 7 10) true demoItemDesc (by decide)
    (by decide) (mkCatEntry rowSim10) (by decide) 10 (by decide)).trans (by decide)

/-- C3 counterexample: the price string 1.234,56 does not parse to
1234.56; the comma replacement produces two dots and parsing fails to
NaN. -/
theorem C3_locale_rule_counterexample :
    to_float "1.234,56" = Option.none ∧
    to_float "1.234,56" ≠ some (mkRat 123456 100) := by
  refine ⟨by decide, by decide⟩

/-- C3 (corrected): a price string whose only separator is a comma uses
it as the decimal point (2,90 parses to 29/10), but any string
containing both a dot and a comma fails to parse (the comma is replaced
by a dot, leaving two dots), yielding NaN instead of the
rightmost-separator locale rule. -/
theorem C3_separator_semantics :
    to_float "2,90" = some (mkRat 29 10) ∧
    ∀ s : String, '.' ∈ s.data → ',' ∈ s.data → to_float s = Option.none := by
  refine ⟨by decide, ?_⟩
  intro s hdot hcomma
  unfold to_float
  apply pyFloatChars_two_dots
  rw [count_map_commaToDot]
  have h1 : 1 ≤ s.data.count '.' := List.one_le_count_iff.mpr hdot
  have h2 : 1 ≤ s.data.count ',' := List.one_le_count_iff.mpr hcomma
  omega

/-- Witness for C3: the comma-only string parses, the two-separator
string of the spec scenario fails. -/
theorem C3_separator_semantics_witness :
    to_float "2,90" = some (mkRat 29 10) ∧ to_float "1.234,56" = Option.none :=
  ⟨C3_separator_semantics.1, C3_separator_semantics.2 "1.234,56" (by decide) (by decide)⟩

/-- C4 counterexample: on bytes that are not a valid PDF container,
pdfplumber.open fails with the InvalidDocument error, yet processar_pdf
catches it and returns the empty table — the error does not propagate to
the caller. -/
theorem C4_error_swallowed_counterexample :
    openPdf PdfBytes.invalid = Except.error PdfOpenError.invalidDocument ∧
    processar_pdf (some PdfBytes.invalid) = [] :=
  ⟨rfl, rfl⟩

/-- C4 (corrected): when the supplied byte stream is not a valid PDF
container, processar_pdf swallows the open error and returns an empty
frame, exactly as it does for a missing upload; no exception reaches the
caller. -/
theorem C4_invalid_pdf_empty_result :
    processar_pdf (some PdfBytes.invalid) = ([] : List AppRow) ∧
    processar_pdf Option.none = ([] : List AppRow) :=
  ⟨rfl, rfl⟩

/-- C5 counterexample: with the out-of-range threshold -1,
buscar_precos performs no validation: it loads the catalog, matches the
item by description similarity and returns a found price, instead of
rejecting the configuration before processing. -/
theorem C5_out_of_range_processes_counterexample :
    buscar_precos [demoItemDesc] (mkRat (-1) 1) true true
      (some [rowSim10, rowSim20]) = ([some 10], ["Loja A"], ["site-a"]) := by
  decide

/-- C5 (corrected): buscar_precos never validates the threshold; an
out-of-range value is used directly in the similarity comparison, so a
threshold below 0 qualifies every catalog entry and a threshold above 1
qualifies none, and processing proceeds in both cases. -/
theorem C5_no_threshold_validation (catalogo : List CatEntry) (dn : String) (t : ℚ) :
    (t < 0 → qualifying catalogo dn t = catalogo) ∧
    (1 < t → qualifying catalogo dn t = []) := by
  constructor
  · intro ht
    unfold qualifying
    rw [List.filter_eq_self]
    intro e he
    simp only [decide_eq_true_eq]
    exact le_trans (le_of_lt ht) (token_set_overlap_nonneg _ _)
  · intro ht
    unfold qualifying
    rw [List.filter_eq_nil_iff]
    intro e he
    simp only [decide_eq_true_eq]
    exact not_le.mpr (lt_of_le_of_lt (token_set_overlap_le_one _ _) ht)

/-- Witness for C5: at thresholds -1 and 2 the qualifying set of the
demo catalog is the whole catalog and the empty list respectively. -/
theorem C5_no_threshold_validation_witness :
    qualifying demoCatalogDesc "adaptador pvc" (mkRat (-1) 1) = demoCatalogDesc ∧
    qualifying demoCatalogDesc "adaptador pvc" (mkRat 2 1) = [] :=
  ⟨(C5_no_threshold_validation demoCatalogDesc "adaptador pvc" (mkRat (-1) 1)).1
      (by decide),
    (C5_no_threshold_validation demoCatalogDesc "adaptador pvc" (mkRat 2 1)).2
      (by decide)⟩

/-- Lists mapped to a constant are replicates. -/
theorem map_const_replicate {α β : Type} (l : List α) (b : β) :
    l.map (fun _ => b) = List.replicate l.length b := by
  induction l with
  | nil => rfl
  | cons x xs ih => simp [ih, List.replicate_succ]

/-- C6 (confirmed): when the catalog file is missing or the loaded
catalog is empty, buscar_precos returns a NaN price and empty market and
source strings for every item; the function is total, so no exception is
raised. -/
theorem C6_empty_catalog_nan (df : List ItemRow) (t : ℚ) (hc hd : Bool)
    (catalogFile : Option (List CatalogRow)) (h : loadCatalog catalogFile = []) :
    buscar_precos df t hc hd catalogFile =
      (List.replicate df.length Option.none, List.replicate df.length "",
        List.replicate df.length "") := by
  unfold buscar_precos
  by_cases hdf : df.isEmpty = true
  · obtain rfl : df = [] := List.isEmpty_iff.mp hdf
    rfl
  · rw [if_neg hdf]
    simp only [h, List.isEmpty_nil, if_true, ite_true]
    rw [map_const_replicate df (Option.none : Option ℚ), map_const_replicate df ""]

/-- Witness for C6: a missing catalog file yields NaN and empty labels
for a one-item table. -/
theorem C6_empty_catalog_nan_witness :
    buscar_precos [demoItemCode] (mkRat 7 10) true true Option.none =
      ([Option.none], [""], [""]) := by
  have h := C6_empty_catalog_nan [demoItemCode] (mkRat 7 10) true true Option.none rfl
  simpa using h

/-- C7 (confirmed): for thresholds 0 ≤ t1 ≤ t2 ≤ 1, the entries
qualifying at t2 form a sublist (hence a subset) of those qualifying at
t1, and the match count never increases when the threshold is raised. -/
theorem C7_threshold_monotone (catalogo : List CatEntry) (dn : String) (t1 t2 : ℚ)
    (_h0 : 0 ≤ t1) (h12 : t1 ≤ t2) (_h1 : t2 ≤ 1) :
    (qualifying catalogo dn t2).Sublist (qualifying catalogo dn t1) ∧
    (∀ e, e ∈ qualifying catalogo dn t2 → e ∈ qualifying catalogo dn t1) ∧
    (qualifying catalogo dn t2).length ≤ (qualifying catalogo dn t1).length := by
  have hs : (qualifying catalogo dn t2).Sublist (qualifying catalogo dn t1) := by
    unfold qualifying
    apply filter_sublist_of_imp
    intro e he
    simp only [decide_eq_true_eq] at he ⊢
    exact le_trans h12 he
  exact ⟨hs, fun e he => hs.subset he, hs.length_le⟩

/-- Witness for C7: between thresholds 1/2 and 3/4 on the demo catalog. -/
theorem C7_threshold_monotone_witness :
    (qualifying demoCatalogDesc "adaptador pvc 3 4" (mkRat 3 4)).Sublist
      (qualifying demoCatalogDesc "adaptador pvc 3 4" (mkRat 1 2)) ∧
    (∀ e, e ∈ qualifying demoCatalogDesc "adaptador pvc 3 4" (mkRat 3 4) →
      e ∈ qualifying demoCatalogDesc "adaptador pvc 3 4" (mkRat 1 2)) ∧
    (qualifying demoCatalogDesc "adaptador pvc 3 4" (mkRat 3 4)).length ≤
      (qualifying demoCatalogDesc "adaptador pvc 3 4" (mkRat 1 2)).length :=
  C7_threshold_monotone demoCatalogDesc "adaptador pvc 3 4" (mkRat 1 2) (mkRat 3 4)
    (by decide) (by decide) (by decide)

/-- C8 counterexample: the unit lookup of the code maps UNID to UN (not
to UNIDADE), maps UN to itself, and passes PC and M through unchanged
(not to PECA and METRO), contradicting the documented mapping table. -/
theorem C8_unit_table_counterexample :
    norm_unid (Cell.str "UNID") = some "UN" ∧ some "UN" ≠ some "UNIDADE" ∧
    norm_unid (Cell.str "UN") = some "UN" ∧
    norm_unid (Cell.str "PC") = some "PC" ∧ some "PC" ≠ some "PECA" ∧
    norm_unid (Cell.str "M") = some "M" ∧ some "M" ≠ some "METRO" := by
  decide

/-- C8 (corrected): after stripping and uppercasing, the fixed lookup of
norm_unid maps exactly UNID, UND, UNI and UN. to the canonical spelling
UN; the empty token becomes None and every token outside the table
passes through unchanged. -/
theorem C8_unit_normalization (s : String)
    (hmem : pyUpper (pyStrip s) ∉ (["UNID", "UND", "UNI", "UN."] : List String))
    (hne : pyUpper (pyStrip s) ≠ "") :
    norm_unid (Cell.str s) = some (pyUpper (pyStrip s)) ∧
    norm_unid (Cell.str "UNID") = some "UN" ∧
    norm_unid (Cell.str "UND") = some "UN" ∧
    norm_unid (Cell.str "UNI") = some "UN" ∧
    norm_unid (Cell.str "UN.") = some "UN" := by
  refine ⟨?_, by decide, by decide, by decide, by decide⟩
  simp only [norm_unid, cellStr]
  have hcond : ¬(pyUpper (pyStrip s) = "UNID" ∨ pyUpper (pyStrip s) = "UND" ∨
      pyUpper (pyStrip s) = "UNI" ∨ pyUpper (pyStrip s) = "UN.") := by
    intro hor
    apply hmem
    rcases hor with h | h | h | h <;> simp [h]
  rw [if_neg hcond, if_neg hne]

/-- Witness for C8: the unknown token PC passes through unchanged while
the four table abbreviations map to UN. -/
theorem C8_unit_normalization_witness :
    norm_unid (Cell.str "PC") = some "PC" ∧
    norm_unid (Cell.str "UNID") = some "UN" ∧
    norm_unid (Cell.str "UND") = some "UN" ∧
    norm_unid (Cell.str "UNI") = some "UN" ∧
    norm_unid (Cell.str "UN.") = some "UN" := by
  have h := C8_unit_normalization "PC" (by decide) (by decide)
  exact ⟨h.1.trans (by decide), h.2.1, h.2.2.1, h.2.2.2.1, h.2.2.2.2⟩

/-- Membership in the guarded final map of processar_pdf forces the
search quantity to 1. -/
theorem mem_guarded_toAppRow (l : List ItemRec) (r : AppRow)
    (hr : r ∈ (if l.isEmpty = true then ([] : List AppRow) else l.map toAppRow)) :
    r.quantPesq = 1 := by
  by_cases h : l.isEmpty = true
  · rw [if_pos h] at hr
    cases hr
  · rw [if_neg h] at hr
    rw [List.mem_map] at hr
    obtain ⟨rec, _hrec, hback⟩ := hr
    rw [← hback]
    rfl

/-- C9 (confirmed): every row of every table returned by processar_pdf
carries the search quantity QUANT PESQ (1) equal to 1, whatever the
extracted quantity was. -/
theorem C9_quant_pesq_one (inp : Option PdfBytes) (r : AppRow)
    (hr : r ∈ processar_pdf inp) : r.quantPesq = 1 := by
  rcases inp with _ | b
  · cases hr
  · rcases b with _ | doc
    · cases hr
    · exact mem_guarded_toAppRow _ r hr

/-- Witness for C9: the demo document produces a nonempty table whose
row has QUANT PESQ (1) = 1. -/
theorem C9_quant_pesq_one_witness :
    demoAppRow ∈ processar_pdf (some (PdfBytes.valid demoDoc)) ∧
    demoAppRow.quantPesq = 1 :=
  ⟨by decide,
    C9_quant_pesq_one (some (PdfBytes.valid demoDoc)) demoAppRow (by decide)⟩

/-- C10 (confirmed): for every item DataFrame, threshold, column
detection outcome and catalog file, buscar_precos returns exactly three
lists, each of the same length as the DataFrame and positionally aligned
with its rows: the three components of the per-item match in row order.
The embedded function is total, so no exception escapes; the source's
blanket except handler returning NaNs is unreachable in this model. -/
theorem C10_result_shape (df : List ItemRow) (t : ℚ) (hc hd : Bool)
    (catalogFile : Option (List CatalogRow)) :
    buscar_precos df t hc hd catalogFile =
      ((df.map (matchItem (loadCatalog catalogFile) t hc hd)).map (fun r => r.1),
        (df.map (matchItem (loadCatalog catalogFile) t hc hd)).map (fun r => r.2.1),
        (df.map (matchItem (loadCatalog catalogFile) t hc hd)).map (fun r => r.2.2)) ∧
    (buscar_precos df t hc hd catalogFile).1.length = df.length ∧
    (buscar_precos df t hc hd catalogFile).2.1.length = df.length ∧
    (buscar_precos df t hc hd catalogFile).2.2.length = df.length := by
  have hmain : buscar_precos df t hc hd catalogFile =
      ((df.map (matchItem (loadCatalog catalogFile) t hc hd)).map (fun r => r.1),
        (df.map (matchItem (loadCatalog catalogFile) t hc hd)).map (fun r => r.2.1),
        (df.map (matchItem (loadCatalog catalogFile) t hc hd)).map (fun r => r.2.2)) := by
    unfold buscar_precos
    by_cases hdf : df.isEmpty = true
    · obtain rfl : df = [] := List.isEmpty_iff.mp hdf
      rfl
    · rw [if_neg hdf]
      by_cases hcat : (loadCatalog catalogFile).isEmpty = true
      · obtain hnil : loadCatalog catalogFile = [] := List.isEmpty_iff.mp hcat
        simp only [hnil, List.isEmpty_nil, if_true, ite_true, List.map_map,
          Prod.mk.injEq]
        refine ⟨?_, ?_, ?_⟩ <;>
          (apply List.map_congr_left; intro it _; simp [Function.comp, matchItem_nil])
      · rw [if_neg hcat]
  refine ⟨hmain, ?_, ?_, ?_⟩
  · rw [hmain]
    simp
  · rw [hmain]
    simp
  · rw [hmain]
    simp

end Licitando
